import Mathlib

/-!
Verification development for `k8soidcpublisher`: a service that republishes a
Kubernetes API server's OIDC discovery document and JWKS on a public endpoint.

The repository's `main.go` contains two generations of the program:
  * a legacy generation (first `package main` block): a warmup fetch, a
    background ticker goroutine refreshing two shared variables
    (`metadata`, `jwks`), and two handlers serving them on
    `/.well-known/openid-configuration` and `/jwks`;
  * the current generation (second `package main` block): a single priming
    fetch of the metadata, a field rewrite (`JWKSURI`, `TokenEndpoint`,
    `AuthorizationEndpoint`), an external discovery handler fed by a
    `k8sAPIJWKSSource` that fetches the JWKS from upstream on demand, and
    signal-driven graceful shutdown.

Both generations are embedded below.  Upstream transport is modelled as a
function from a request string to either a transport error or a response
body; the Go standard library's JSON round trip (`json.Unmarshal` /
`json.Encoder.Encode`) is modelled over a small JSON syntax tree.
-/

/-- A JSON value: the fragment of JSON the program's documents use
(`encoding/json` restricted to null, booleans, integer numbers, strings,
arrays and objects; fractional numbers do not occur in the documents the
claims are about, and a body using them is simply outside the modelled
parser). -/
inductive Json where
  | null : Json
  | bool (b : Bool) : Json
  | num (n : Int) : Json
  | str (s : String) : Json
  | arr (elems : List Json) : Json
  | obj (fields : List (String × Json)) : Json

/-- Whitespace as skipped by the JSON scanner. -/
def isJsonWs (c : Char) : Bool :=
  c == ' ' || c == '\n' || c == '\t' || c == '\r'

/-- Drop leading JSON whitespace. -/
def skipWs : List Char → List Char
  | [] => []
  | c :: cs => if isJsonWs c then skipWs cs else c :: cs

/-- Parse the remainder of a JSON string literal (the opening quote already
consumed), handling the escape sequences that occur in the documents. -/
def parseStrChars : List Char → Option (List Char × List Char)
  | [] => none
  | '"' :: rest => some ([], rest)
  | '\\' :: c :: rest =>
    (match c with
      | '"' => some '"'
      | '\\' => some '\\'
      | '/' => some '/'
      | 'n' => some '\n'
      | 't' => some '\t'
      | 'r' => some '\r'
      | _ => none).bind fun e =>
      (parseStrChars rest).map fun (p : List Char × List Char) => (e :: p.1, p.2)
  | c :: rest =>
    if c == '"' || c == '\\' then none
    else (parseStrChars rest).map fun (p : List Char × List Char) => (c :: p.1, p.2)

/-- Take the leading run of decimal digits. -/
def takeDigits : List Char → List Char × List Char
  | [] => ([], [])
  | c :: cs =>
    if c.isDigit then
      let p := takeDigits cs
      (c :: p.1, p.2)
    else ([], c :: cs)

/-- Numeric value of a digit run. -/
def digitsToNat (ds : List Char) : Nat :=
  ds.foldl (fun a c => a * 10 + (c.toNat - 48)) 0

mutual

/-- Fuel-bounded parser for a JSON value (leading whitespace allowed). -/
def parseVal : Nat → List Char → Option (Json × List Char)
  | 0, _ => none
  | fuel + 1, s =>
    match skipWs s with
    | 'n' :: 'u' :: 'l' :: 'l' :: r => some (.null, r)
    | 't' :: 'r' :: 'u' :: 'e' :: r => some (.bool true, r)
    | 'f' :: 'a' :: 'l' :: 's' :: 'e' :: r => some (.bool false, r)
    | '"' :: r => (parseStrChars r).map fun p => (.str (String.mk p.1), p.2)
    | '-' :: r =>
      match takeDigits r with
      | ([], _) => none
      | (ds, r2) => some (.num (-(digitsToNat ds : Int)), r2)
    | '\x7b' :: r =>
      match skipWs r with
      | '\x7d' :: r2 => some (.obj [], r2)
      | r2 => (parseFieldsF fuel r2).map fun p => (.obj p.1, p.2)
    | '[' :: r =>
      match skipWs r with
      | ']' :: r2 => some (.arr [], r2)
      | r2 => (parseItemsF fuel r2).map fun p => (.arr p.1, p.2)
    | c :: r =>
      if c.isDigit then
        match takeDigits (c :: r) with
        | ([], _) => none
        | (ds, r2) => some (.num (digitsToNat ds : Int), r2)
      else none
    | [] => none

/-- Fuel-bounded parser for the comma-separated elements of a non-empty
array, consuming the closing bracket. -/
def parseItemsF : Nat → List Char → Option (List Json × List Char)
  | 0, _ => none
  | fuel + 1, s =>
    match parseVal fuel s with
    | none => none
    | some (v, r) =>
      match skipWs r with
      | ',' :: r2 => (parseItemsF fuel r2).map fun p => (v :: p.1, p.2)
      | ']' :: r2 => some ([v], r2)
      | _ => none

/-- Fuel-bounded parser for the members of a non-empty object, consuming
the closing brace. -/
def parseFieldsF : Nat → List Char → Option (List (String × Json) × List Char)
  | 0, _ => none
  | fuel + 1, s =>
    match skipWs s with
    | '"' :: r =>
      match parseStrChars r with
      | none => none
      | some (kcs, r2) =>
        match skipWs r2 with
        | ':' :: r3 =>
          match parseVal fuel r3 with
          | none => none
          | some (v, r4) =>
            match skipWs r4 with
            | ',' :: r5 => (parseFieldsF fuel r5).map fun p => ((String.mk kcs, v) :: p.1, p.2)
            | '\x7d' :: r5 => some ([(String.mk kcs, v)], r5)
            | _ => none
        | _ => none
    | _ => none

end

/-- Parse a full JSON document, requiring only trailing whitespace after the
value, as `json.Unmarshal` does; the fuel is generous enough for any
document of the given length. -/
def parseJson (s : String) : Option Json :=
  match parseVal (2 * s.length + 4) s.data with
  | some (j, r) => if (skipWs r).isEmpty then some j else none
  | none => none

/-- Escape one character for a JSON string literal (only the escapes the
program's documents can need). -/
def escapeChar (c : Char) : String :=
  if c == '"' then "\\\""
  else if c == '\\' then "\\\\"
  else if c == '\n' then "\\n"
  else if c == '\t' then "\\t"
  else if c == '\r' then "\\r"
  else String.mk [c]

/-- Render a JSON string literal. -/
def renderString (s : String) : String :=
  "\"" ++ String.join (s.data.map escapeChar) ++ "\""

mutual

/-- Compact rendering of a JSON value, as `json.Marshal` produces it (no
spaces between tokens, fields in the order held by the value). -/
def renderJson : Json → String
  | .null => "null"
  | .bool true => "true"
  | .bool false => "false"
  | .num n => toString n
  | .str s => renderString s
  | .arr xs => "[" ++ renderArrBody xs ++ "]"
  | .obj fs => "\x7b" ++ renderObjBody fs ++ "\x7d"

/-- Comma-separated rendering of array elements. -/
def renderArrBody : List Json → String
  | [] => ""
  | [x] => renderJson x
  | x :: y :: xs => renderJson x ++ "," ++ renderArrBody (y :: xs)

/-- Comma-separated rendering of object members. -/
def renderObjBody : List (String × Json) → String
  | [] => ""
  | [(k, v)] => renderString k ++ ":" ++ renderJson v
  | (k, v) :: f :: fs => renderString k ++ ":" ++ renderJson v ++ "," ++ renderObjBody (f :: fs)

end

/-- Last-wins lookup of an object member, matching how `encoding/json`
assigns duplicate keys (later occurrences overwrite earlier ones). -/
def jsonLookup (k : String) : List (String × Json) → Option Json
  | [] => none
  | (k2, v) :: fs =>
    match jsonLookup k fs with
    | some v2 => some v2
    | none => if k2 = k then some v else none

/-- The OIDC provider metadata record (`oidc.ProviderMetadata` in the
source), restricted to the fields the program reads or writes plus a
representative sample of pass-through fields; each maps to the JSON name
used in the discovery document. -/
structure ProviderMetadata where
  issuer : String
  authorizationEndpoint : String
  tokenEndpoint : String
  jwksURI : String
  userinfoEndpoint : String
  scopesSupported : List String
  responseTypesSupported : List String
  subjectTypesSupported : List String
  idTokenSigningAlgValuesSupported : List String
  claimsSupported : List String
deriving DecidableEq

/-- Decode an optional string member the way `encoding/json` fills a
`string` struct field: absent or null leaves the zero value, a string is
taken verbatim, any other type is an unmarshal error. -/
def strFieldD (fs : List (String × Json)) (k : String) : Option String :=
  match jsonLookup k fs with
  | none => some ""
  | some .null => some ""
  | some (.str s) => some s
  | some _ => none

/-- Require every element of a JSON array to be a string. -/
def strsOf : List Json → Option (List String)
  | [] => some []
  | .str s :: xs => (strsOf xs).map fun l => s :: l
  | _ :: _ => none

/-- Decode an optional string-array member the way `encoding/json` fills a
`[]string` struct field. -/
def strListFieldD (fs : List (String × Json)) (k : String) : Option (List String) :=
  match jsonLookup k fs with
  | none => some []
  | some .null => some []
  | some (.arr xs) => strsOf xs
  | some _ => none

/-- `json.Unmarshal` of a discovery-document body into
`oidc.ProviderMetadata`: a JSON object assigns the known fields (unknown
members are dropped, wrongly typed members are an error), `null` leaves the
zero value, any other document shape is an error. -/
def goUnmarshalMetadata (body : String) : Option ProviderMetadata :=
  match parseJson body with
  | some (.obj fs) =>
    match strFieldD fs "issuer", strFieldD fs "authorization_endpoint",
          strFieldD fs "token_endpoint", strFieldD fs "jwks_uri",
          strFieldD fs "userinfo_endpoint" with
    | some i, some a, some t, some j, some u =>
      match strListFieldD fs "scopes_supported", strListFieldD fs "response_types_supported",
            strListFieldD fs "subject_types_supported",
            strListFieldD fs "id_token_signing_alg_values_supported",
            strListFieldD fs "claims_supported" with
      | some sc, some rt, some st, some alg, some cl =>
        some ⟨i, a, t, j, u, sc, rt, st, alg, cl⟩
      | _, _, _, _, _ => none
    | _, _, _, _, _ => none
  | some .null => some ⟨"", "", "", "", "", [], [], [], [], []⟩
  | _ => none

/-- The `Keys` slice of `jose.JSONWebKeySet`: `none` is Go's nil slice
(marshalled as `null`), `some l` a present array.  Key objects are kept as
raw JSON values — an over-approximation of fidelity, since the real
`jose.JSONWebKey` codec re-orders and normalises key members. -/
abbrev JWKSet := Option (List Json)

/-- `json.Unmarshal` of a JWKS body into `jose.JSONWebKeySet`: the outer
`none` is an unmarshal error; otherwise the decoded `Keys` slice. -/
def goUnmarshalJWKS (body : String) : Option JWKSet :=
  match parseJson body with
  | some (.obj fs) =>
    match jsonLookup "keys" fs with
    | some (.arr ks) => some (some ks)
    | some .null => some none
    | some _ => none
    | none => some none
  | some .null => some none
  | _ => none

/-- `json.Marshal` of a `jose.JSONWebKeySet` value: the struct has the
single tagged field `keys`; a nil slice marshals as `null`. -/
def marshalJWKSOld (ks : JWKSet) : String :=
  "\x7b\"keys\":" ++ (match ks with
    | none => "null"
    | some l => renderJson (.arr l)) ++ "\x7d"

/-- Everything after the first `"://"`, if any (scheme and separator
dropped). -/
def afterScheme : List Char → Option (List Char)
  | ':' :: '/' :: '/' :: rest => some rest
  | _ :: rest => afterScheme rest
  | [] => none

/-- Drop the authority component: keep from the first `'/'` on. -/
def fromFirstSlash : List Char → List Char
  | [] => []
  | '/' :: r => '/' :: r
  | _ :: r => fromFirstSlash r

/-- The path component of a URL, as `url.Parse(u).Path` yields it for the
URLs the program meets: strip `scheme://host`, stop at a query or
fragment. -/
def urlPathOf (u : String) : String :=
  let body := match afterScheme u.data with
    | some r => fromFirstSlash r
    | none => u.data
  String.mk (body.takeWhile fun c => c != '?' && c != '#')

/-- `url.Parse` as the program uses it: it fails on control characters and
otherwise yields the path component (other failure modes of the real
parser, such as bad percent escapes, do not matter to any claim). -/
def goURLParse (u : String) : Option String :=
  if u.data.any (fun c => c.toNat < 32) then none else some (urlPathOf u)

/-- An upstream client (`rest.RESTClient`): maps the request string passed
to `RequestURI` to a transport error or a raw response body. -/
abbrev UpClient := String → Except String String

/-- The well-known discovery path both generations request first. -/
def wellKnownPath : String := "/.well-known/openid-configuration"

/-- One fetch cycle of the legacy generation (`discoverAPIServerOIDC`,
first block): GET the well-known path, unmarshal the metadata, parse its
`jwks_uri`, GET the path portion of that URI against the same client,
unmarshal the key set.  The first component records every upstream GET
issued, in order; the second mirrors the Go tuple
`(*oidc.ProviderMetadata, *jose.JSONWebKeySet, error)` — on any error both
pointers are nil.  Parse-stage messages carry the Go format string's fixed
prefix (the appended decoder detail is elided). -/
def discoverAPIServerOIDCOld (client : UpClient) :
    List String × (Option ProviderMetadata × Option JWKSet × Option String) :=
  match client wellKnownPath with
  | .error e => ([wellKnownPath],
      (none, none, some ("getting /.well-known/openid-configuration: " ++ e)))
  | .ok mdraw =>
    match goUnmarshalMetadata mdraw with
    | none => ([wellKnownPath], (none, none, some "unmarshaling discovery response"))
    | some md =>
      match goURLParse md.jwksURI with
      | none => ([wellKnownPath], (none, none, some ("parsing jwks url " ++ md.jwksURI)))
      | some p =>
        match client p with
        | .error e => ([wellKnownPath, p], (none, none, some ("getting " ++ p ++ ": " ++ e)))
        | .ok kraw =>
          match goUnmarshalJWKS kraw with
          | none => ([wellKnownPath, p], (none, none, some "unmarshaling jwks"))
          | some ks => ([wellKnownPath, p], (some md, some ks, none))

/-- The legacy generation's shared mutable variables: the `metadata` and
`jwks` pointers written by the refresh goroutine and read by both
handlers. -/
structure SharedState where
  metadata : Option ProviderMetadata
  jwks : Option JWKSet

/-- One tick of the legacy refresh goroutine after the fetch returned
`r = (md, ks, err)`: the Go body logs on error and then executes
`metadata, jwks = md, ks` unconditionally, so the shared variables receive
the returned pointers whether or not `err` is nil — the previous state is
discarded in every case. -/
def refreshTick (r : Option ProviderMetadata × Option JWKSet × Option String)
    (_s : SharedState) : SharedState :=
  ⟨r.1, r.2.1⟩

/-- One iteration of the legacy refresh goroutine's
`for range time.NewTicker(fetchInterval).C` loop.  `none` would mean the
loop exits its scheduling construct; the body contains no `break`,
`return` or `ctx.Done()` select, so the continuation is unconditional and
the cancellation flag is never consulted. -/
def tickerLoopStep (_cancelled : Bool) (s : SharedState)
    (r : Option ProviderMetadata × Option JWKSet × Option String) : Option SharedState :=
  some (refreshTick r s)

/-- Run the legacy refresh loop over a list of fetch results (one per
tick), stopping early only if an iteration exits. -/
def runRefreshLoop (cancelled : Bool) (s : SharedState) :
    List (Option ProviderMetadata × Option JWKSet × Option String) → Option SharedState
  | [] => some s
  | r :: rs =>
    match tickerLoopStep cancelled s r with
    | none => none
    | some s2 => runRefreshLoop cancelled s2 rs

/-- The legacy `/.well-known/openid-configuration` handler: it issues no
upstream request, mutates the shared metadata pointer in place
(`metadata.JWKSURI = metadata.Issuer + "/jwks"`) and encodes the result
(returned here as the record it encodes; a nil pointer would fault before
any response, modelled as no response).  Components: upstream GETs issued,
the shared state after the request, the served metadata. -/
def oldConfigHandler (_client : UpClient) (s : SharedState) :
    List String × SharedState × Option ProviderMetadata :=
  match s.metadata with
  | none => ([], s, none)
  | some md =>
    let md2 := { md with jwksURI := md.issuer ++ "/jwks" }
    ([], ⟨some md2, s.jwks⟩, some md2)

/-- The legacy `/jwks` handler: no upstream request, no mutation; it
encodes the shared key-set pointer with `json.Encoder.Encode`, which
appends a newline (a nil pointer encodes as `null`). -/
def oldJWKSHandler (_client : UpClient) (s : SharedState) :
    List String × SharedState × Option String :=
  ([], s, some (match s.jwks with
    | none => "null" ++ "\n"
    | some ks => marshalJWKSOld ks ++ "\n"))

/-- The legacy `/jwks` response for an upstream JWKS body `B` committed by
the last successful refresh: the composition of the fetch-side
`json.Unmarshal` into `jose.JSONWebKeySet` and the serving-side
`json.Encoder.Encode` (`none` when the body never unmarshals, so no such
refresh commits). -/
def serveJWKSOld (B : String) : Option String :=
  (goUnmarshalJWKS B).map fun ks => marshalJWKSOld ks ++ "\n"

/-- One fetch of the current generation (`discoverAPIServerOIDC`, second
block): a single GET of the well-known path and a metadata unmarshal;
the JWKS is no longer fetched here. -/
def discoverAPIServerOIDCNew (client : UpClient) :
    List String × Except String ProviderMetadata :=
  match client wellKnownPath with
  | .error e => ([wellKnownPath], .error ("getting /.well-known/openid-configuration: " ++ e))
  | .ok mdraw =>
    match goUnmarshalMetadata mdraw with
    | none => ([wellKnownPath], .error "unmarshaling discovery response")
    | some md => ([wellKnownPath], .ok md)

/-- The current generation's post-priming rewrite (`main.go`, second
block): keep the upstream `JWKSURI` aside, then point `JWKSURI` at the
local well-known JWKS path and both token endpoints at a nonexistent path
under the issuer. -/
def rewriteMetadata (md : ProviderMetadata) : ProviderMetadata :=
  { md with
    jwksURI := md.issuer ++ "/.well-known/jwks.json"
    tokenEndpoint := md.issuer ++ "/nonexistent"
    authorizationEndpoint := md.issuer ++ "/nonexistent" }

/-- Outcome of the current generation's startup: either the process exited
with the given status before binding the listener (`listenerBound`
records whether `ListenAndServe` was reached), or it serves with the
rewritten metadata, remembering the upstream JWKS URI for the source. -/
inductive MainOutcome where
  | exited (code : Nat) (listenerBound : Bool) : MainOutcome
  | serving (md : ProviderMetadata) (upstreamJWKSURI : String) : MainOutcome
deriving DecidableEq

/-- The priming phase of the current `main`: on a fetch error it logs and
calls `os.Exit(1)` before the handler or server are created; on success it
rewrites the metadata and proceeds to serve. -/
def mainPrime (fetch : List String × Except String ProviderMetadata) : MainOutcome :=
  match fetch.2 with
  | .error _ => .exited 1 false
  | .ok md => .serving (rewriteMetadata md) md.jwksURI

/-- Run the current generation's startup against an upstream client. -/
def runMainNew (client : UpClient) : MainOutcome :=
  mainPrime (discoverAPIServerOIDCNew client)

/-- Whether an outcome ever bound the HTTP listener. -/
def listenerBoundIn : MainOutcome → Bool
  | .exited _ b => b
  | .serving _ _ => true

/-- The metadata an outcome serves, if it serves at all. -/
def servedMetadata : MainOutcome → Option ProviderMetadata
  | .exited _ _ => none
  | .serving md _ => some md

/-- `k8sAPIJWKSSource.GetJWKS`: every invocation issues one upstream GET of
the stored URL and returns the raw body unmodified; the request list
records the GET. -/
def k8sGetJWKS (client : UpClient) (url : String) : List String × Except String String :=
  match client url with
  | .error e => ([url], .error ("getting " ++ url ++ ": " ++ e))
  | .ok kraw => ([url], .ok kraw)

/-- A Go `map[string]interface{}` that may be nil: `none` is the nil map of
a zero-valued `cache` (the type has no constructor that allocates it). -/
abbrev GoMap := Option (List (String × Json))

/-- The legacy file's `cache` struct (declared but never instantiated by
the program): its only data is the possibly-nil map; the `RWMutex` adds no
observable state to a sequential model. -/
structure GoCache where
  data : GoMap

/-- Insert-or-replace for the association-list model of a Go map. -/
def mapInsert (k : String) (v : Json) : List (String × Json) → List (String × Json)
  | [] => [(k, v)]
  | (k2, v2) :: m => if k2 = k then (k, v) :: m else (k2, v2) :: mapInsert k v m

/-- `cache.Get`: indexing a nil map (or a missing key) yields the zero
value of `interface{}` — nil, modelled `none` — and never panics. -/
def cacheGet (c : GoCache) (k : String) : Option Json :=
  match c.data with
  | none => none
  | some m => jsonLookup k m

/-- `cache.Set`: assigning into the map; a write to a nil map is a runtime
panic, modelled as `none` (no resulting cache). -/
def cacheSet (c : GoCache) (k : String) (v : Json) : Option GoCache :=
  match c.data with
  | none => none
  | some m => some ⟨some (mapInsert k v m)⟩

/-- Interleaving model of the legacy commit: the shared variables hold the
fetch-cycle number their current contents came from. -/
structure RaceState where
  metadata : Nat
  jwks : Nat
deriving DecidableEq

/-- First half of the Go tuple assignment `metadata, jwks = md, ks`: the
write to `metadata` alone.  No lock is held (the declared `cache` with its
`RWMutex` is never used), so a handler may run between the two writes. -/
def writeMetadataVar (c : Nat) (s : RaceState) : RaceState :=
  ⟨c, s.jwks⟩

/-- Second half of the tuple assignment: the write to `jwks` alone. -/
def writeJWKSVar (c : Nat) (s : RaceState) : RaceState :=
  ⟨s.metadata, c⟩

/-- A full commit of cycle `c` is exactly the two variable writes in
assignment order. -/
def commitCycle (c : Nat) (s : RaceState) : RaceState :=
  writeJWKSVar c (writeMetadataVar c s)

/-- What a handler observes when it reads both shared variables. -/
def readSnapshot (s : RaceState) : Nat × Nat :=
  (s.metadata, s.jwks)

/-- The §8 scenario's upstream discovery document. -/
def mdBodyEx : String :=
  "\x7b\"issuer\":\"https://api.example:6443\",\"jwks_uri\":\"https://api.example:6443/openid/v1/jwks\"\x7d"

/-- The §8 scenario's upstream JWKS body (no keys, the envelope only). -/
def jwksBodyEx : String := "\x7b\"keys\":[]\x7d"

/-- The metadata record `mdBodyEx` unmarshals to. -/
def mdEx : ProviderMetadata :=
  ⟨"https://api.example:6443", "", "",
    "https://api.example:6443/openid/v1/jwks", "", [], [], [], [], []⟩

/-- A healthy upstream serving the §8 scenario documents. -/
def clientEx : UpClient := fun p =>
  if p = wellKnownPath then .ok mdBodyEx
  else if p = "/openid/v1/jwks" then .ok jwksBodyEx
  else .error "not found"

/-- An unreachable upstream: every GET is a transport error. -/
def clientFail : UpClient := fun _ => .error "connection refused"

/-- A shared state already primed with the §8 scenario data. -/
def primedState : SharedState :=
  ⟨some mdEx, some (some [])⟩

/-- A metadata record whose upstream `jwks_uri` coincides with the local
republished location — a well-formed upstream document the rewrite maps to
itself. -/
def mdUpstreamSameEx : ProviderMetadata :=
  ⟨"https://api.example:6443", "", "",
    "https://api.example:6443/.well-known/jwks.json", "", [], [], [], [], []⟩

/-- An upstream answering the JWKS URL with the §8 body. -/
def clientJWKSA : UpClient := fun _ => .ok jwksBodyEx

/-- An upstream answering the JWKS URL with a different body. -/
def clientJWKSB : UpClient := fun _ => .ok "\x7b\"keys\":[\x7b\"kid\":\"abc\"\x7d]\x7d"

/-- C1: the claim says a failed periodic refresh leaves the cached
metadata and JWKS untouched (stale serving), as the code's own comment
promises; but the goroutine body executes `metadata, jwks = md, ks`
unconditionally, and on error the fetcher returned nil pointers, so a
single failed tick replaces the whole cache with nils.  This theorem
evaluates the code at the failing input: an error tick maps every state —
including a primed one — to the all-nil state, and a concrete transport
failure wipes `primedState`. -/
theorem c1_failed_refresh_overwrites_cache (s : SharedState) (e : String) :
    refreshTick (none, none, some e) s = SharedState.mk none none ∧
    refreshTick (none, none, some e) primedState ≠ primedState ∧
    refreshTick (discoverAPIServerOIDCOld clientFail).2 primedState = SharedState.mk none none := by
  refine ⟨rfl, ?_, rfl⟩
  intro h
  have h2 := congrArg SharedState.metadata h
  simp [refreshTick, primedState] at h2

/-- C4: the claim says the cached (metadata, JWKS) tuple is replaced
atomically so no reader mixes two fetch cycles; but the commit is the Go
tuple assignment — two separate writes to unsynchronised shared variables
(the mutex-guarded `cache` type is declared yet never instantiated) — so a
handler scheduled between the two writes of cycle 2, after a complete
commit of cycle 1, observes metadata of cycle 2 paired with keys of
cycle 1. -/
theorem c4_torn_read_between_writes :
    (∀ c s, commitCycle c s = writeJWKSVar c (writeMetadataVar c s)) ∧
    readSnapshot (writeMetadataVar 2 (commitCycle 1 (RaceState.mk 0 0))) = (2, 1) ∧
    (2 : Nat) ≠ 1 :=
  ⟨fun _ _ => rfl, rfl, by decide⟩

/-- C7: the claim says the refresh loop stops within one tick of the
process-wide cancellation signal; but the goroutine ranges over a bare
ticker channel with no `ctx.Done()` select, so the loop runs every
scheduled tick whether or not cancellation fired — its behaviour is
identical with the flag set and it never exits. -/
theorem c7_refresh_loop_ignores_cancellation (s : SharedState)
    (rs : List (Option ProviderMetadata × Option JWKSet × Option String)) :
    (runRefreshLoop true s rs).isSome = true ∧
    runRefreshLoop true s rs = runRefreshLoop false s rs := by
  induction rs generalizing s with
  | nil => exact ⟨rfl, rfl⟩
  | cons r rs ih =>
    exact ⟨(ih (refreshTick r s)).1, (ih (refreshTick r s)).2⟩

/-- C9: on the zero-valued `cache` (nil map, and the type offers no
constructor), `Set` hits the nil-map-write panic while `Get` returns nil
without panicking; the rest of the program never creates a `cache`
value. -/
theorem c9_zero_value_cache (k : String) (v : Json) :
    cacheSet (GoCache.mk none) k v = none ∧ cacheGet (GoCache.mk none) k = none :=
  ⟨rfl, rfl⟩

/-- C10: after priming, the current generation overwrites `token_endpoint`
and `authorization_endpoint` with `issuer + "/nonexistent"` (and
`jwks_uri` with the local well-known path); every other metadata field
passes through from upstream unchanged. -/
theorem c10_token_endpoints_overwritten (md : ProviderMetadata) :
    (rewriteMetadata md).tokenEndpoint = md.issuer ++ "/nonexistent" ∧
    (rewriteMetadata md).authorizationEndpoint = md.issuer ++ "/nonexistent" ∧
    (rewriteMetadata md).jwksURI = md.issuer ++ "/.well-known/jwks.json" ∧
    (rewriteMetadata md).issuer = md.issuer ∧
    (rewriteMetadata md).userinfoEndpoint = md.userinfoEndpoint ∧
    (rewriteMetadata md).scopesSupported = md.scopesSupported ∧
    (rewriteMetadata md).responseTypesSupported = md.responseTypesSupported ∧
    (rewriteMetadata md).subjectTypesSupported = md.subjectTypesSupported ∧
    (rewriteMetadata md).idTokenSigningAlgValuesSupported = md.idTokenSigningAlgValuesSupported ∧
    (rewriteMetadata md).claimsSupported = md.claimsSupported :=
  ⟨rfl, rfl, rfl, rfl, rfl, rfl, rfl, rfl, rfl, rfl⟩

/-- C2 counterexample: the claim's "never equals the upstream-internal
JWKS URL" fails when the upstream document already advertises
`issuer + "/.well-known/jwks.json"`: for that well-formed upstream
response the republished `jwks_uri` equals the upstream value. -/
theorem c2_rewrite_can_equal_upstream :
    (rewriteMetadata mdUpstreamSameEx).jwksURI = mdUpstreamSameEx.jwksURI :=
  rfl

/-- C2 amended: the served `jwks_uri` always equals the issuer joined with
the local JWKS path (so its origin is the issuer's), it is exactly what
the serving outcome exposes, and it differs from the upstream-internal
JWKS URL whenever that URL is not itself the issuer joined with the local
path. -/
theorem c2_jwks_uri_rewritten_to_issuer (md : ProviderMetadata) :
    (rewriteMetadata md).jwksURI = md.issuer ++ "/.well-known/jwks.json" ∧
    (∀ reqs, servedMetadata (mainPrime (reqs, Except.ok md)) = some (rewriteMetadata md)) ∧
    (md.jwksURI ≠ md.issuer ++ "/.well-known/jwks.json" →
      (rewriteMetadata md).jwksURI ≠ md.jwksURI) := by
  refine ⟨rfl, fun _ => rfl, fun h heq => h ?_⟩
  calc md.jwksURI = (rewriteMetadata md).jwksURI := heq.symm
    _ = md.issuer ++ "/.well-known/jwks.json" := rfl

/-- C2 witness: at the §8 scenario metadata, whose upstream JWKS URI is
the internal `/openid/v1/jwks` location, the rewrite yields the issuer
joined with the local path and differs from the upstream URI. -/
theorem c2_jwks_uri_rewritten_witness :
    (rewriteMetadata mdEx).jwksURI = mdEx.issuer ++ "/.well-known/jwks.json" ∧
    (rewriteMetadata mdEx).jwksURI ≠ mdEx.jwksURI :=
  ⟨(c2_jwks_uri_rewritten_to_issuer mdEx).1,
   (c2_jwks_uri_rewritten_to_issuer mdEx).2.2 (by decide)⟩

/-- C3: if the priming fetch errors, the current `main` logs and exits
with status 1 before the handler or server exist: the listener is never
bound and nothing is ever served. -/
theorem c3_priming_failure_is_fatal (client : UpClient) (e : String)
    (h : (discoverAPIServerOIDCNew client).2 = Except.error e) :
    runMainNew client = MainOutcome.exited 1 false ∧
    listenerBoundIn (runMainNew client) = false ∧
    servedMetadata (runMainNew client) = none := by
  have h2 : runMainNew client = MainOutcome.exited 1 false := by
    unfold runMainNew mainPrime
    rw [h]
  exact ⟨h2, by rw [h2]; rfl, by rw [h2]; rfl⟩

/-- C3 witness: against an unreachable upstream the process exits with
status 1 without binding the listener. -/
theorem c3_priming_failure_witness :
    runMainNew clientFail = MainOutcome.exited 1 false ∧
    listenerBoundIn (runMainNew clientFail) = false ∧
    servedMetadata (runMainNew clientFail) = none :=
  c3_priming_failure_is_fatal clientFail
    ("getting /.well-known/openid-configuration: " ++ "connection refused") rfl

/-- C5 counterexample: the legacy `/jwks` endpoint does not return the
upstream body byte-for-byte: even for the plain envelope
`{"keys":[]}` the served body is the re-encoding with
`json.Encoder.Encode`'s trailing newline, which differs from the upstream
bytes. -/
theorem c5_legacy_jwks_not_byte_identical :
    serveJWKSOld jwksBodyEx = some (jwksBodyEx ++ "\n") ∧
    jwksBodyEx ++ "\n" ≠ jwksBodyEx :=
  ⟨rfl, by decide⟩

/-- C5 amended: byte-for-byte fidelity holds where the current generation
owns the round trip — `k8sAPIJWKSSource.GetJWKS` returns the fetched body
unchanged; the legacy `/jwks` handler instead re-encodes the parsed key
set (dropping unknown envelope members and appending a newline), so its
response is only semantically, not byte-, identical. -/
theorem c5_source_returns_body_verbatim (client : UpClient) (u B : String)
    (h : client u = Except.ok B) :
    (k8sGetJWKS client u).2 = Except.ok B := by
  unfold k8sGetJWKS
  rw [h]

/-- C5 witness: a source whose upstream answers the §8 JWKS body returns
exactly that body. -/
theorem c5_source_returns_body_witness :
    (k8sGetJWKS clientJWKSA "/openid/v1/jwks").2 = Except.ok jwksBodyEx :=
  c5_source_returns_body_verbatim clientJWKSA "/openid/v1/jwks" jwksBodyEx rfl

/-- C8 counterexample: in the current generation the priming fetch
retrieves only the discovery document (one GET, no JWKS is ever cached by
the program), and the JWKS source wired into the handler issues an
upstream GET on every invocation, returning upstream-dependent data: two
upstreams indistinguishable by any cached state yield different results.
So the JWKS served after priming is not computed solely from cached
data. -/
theorem c8_jwks_source_fetches_per_call :
    (discoverAPIServerOIDCNew clientEx).1 = [wellKnownPath] ∧
    (k8sGetJWKS clientJWKSA "https://api.example:6443/openid/v1/jwks").1 =
      ["https://api.example:6443/openid/v1/jwks"] ∧
    k8sGetJWKS clientJWKSA "https://api.example:6443/openid/v1/jwks" ≠
      k8sGetJWKS clientJWKSB "https://api.example:6443/openid/v1/jwks" ∧
    ["https://api.example:6443/openid/v1/jwks"] ≠ ([] : List String) := by
  refine ⟨rfl, rfl, ?_, by decide⟩
  intro h
  have h2 : (k8sGetJWKS clientJWKSA "https://api.example:6443/openid/v1/jwks").2.toOption =
      (k8sGetJWKS clientJWKSB "https://api.example:6443/openid/v1/jwks").2.toOption := by
    rw [h]
  exact absurd h2 (by decide)

/-- C8 amended: the legacy handlers never touch the upstream on the
request path — their output and state change are independent of the
client and they issue no GETs — while the current generation's JWKS
source performs exactly one upstream GET each time it is invoked (the
program keeps no JWKS cache of its own; any request-path decoupling would
have to come from the external discovery library). -/
theorem c8_request_path_fetch_policy (s : SharedState) (c1 c2 : UpClient) (u : String) :
    oldConfigHandler c1 s = oldConfigHandler c2 s ∧
    oldJWKSHandler c1 s = oldJWKSHandler c2 s ∧
    (oldConfigHandler c1 s).1 = [] ∧
    (oldJWKSHandler c1 s).1 = [] ∧
    (k8sGetJWKS c1 u).1 = [u] := by
  refine ⟨rfl, rfl, ?_, rfl, ?_⟩
  · cases h : s.metadata <;> simp [oldConfigHandler, h]
  · cases h : c1 u <;> simp [k8sGetJWKS, h]

/-- C6: a full characterization of the legacy fetch cycle.  The request
log is `[wellKnownPath]` or `[wellKnownPath, p]` — never more, so nothing
is retried; on success it is exactly the well-known discovery path
followed by the path portion of the advertised `jwks_uri` against the
same client; and each failure (transport or unmarshal of either document,
or the URL parse between them) returns the distinctive message of its
stage with no further request. -/
theorem c6_fetcher_exactly_two_gets (client : UpClient) :
    ((discoverAPIServerOIDCOld client).1 = [wellKnownPath] ∨
      ∃ p, (discoverAPIServerOIDCOld client).1 = [wellKnownPath, p]) ∧
    (∀ e, client wellKnownPath = Except.error e →
      discoverAPIServerOIDCOld client =
        ([wellKnownPath], (none, none, some ("getting /.well-known/openid-configuration: " ++ e)))) ∧
    (∀ body, client wellKnownPath = Except.ok body → goUnmarshalMetadata body = none →
      discoverAPIServerOIDCOld client =
        ([wellKnownPath], (none, none, some "unmarshaling discovery response"))) ∧
    (∀ body md, client wellKnownPath = Except.ok body → goUnmarshalMetadata body = some md →
      goURLParse md.jwksURI = none →
      discoverAPIServerOIDCOld client =
        ([wellKnownPath], (none, none, some ("parsing jwks url " ++ md.jwksURI)))) ∧
    (∀ body md p e, client wellKnownPath = Except.ok body → goUnmarshalMetadata body = some md →
      goURLParse md.jwksURI = some p → client p = Except.error e →
      discoverAPIServerOIDCOld client =
        ([wellKnownPath, p], (none, none, some ("getting " ++ p ++ ": " ++ e)))) ∧
    (∀ body md p kraw, client wellKnownPath = Except.ok body → goUnmarshalMetadata body = some md →
      goURLParse md.jwksURI = some p → client p = Except.ok kraw → goUnmarshalJWKS kraw = none →
      discoverAPIServerOIDCOld client =
        ([wellKnownPath, p], (none, none, some "unmarshaling jwks"))) ∧
    (∀ body md p kraw ks, client wellKnownPath = Except.ok body → goUnmarshalMetadata body = some md →
      goURLParse md.jwksURI = some p → client p = Except.ok kraw → goUnmarshalJWKS kraw = some ks →
      discoverAPIServerOIDCOld client = ([wellKnownPath, p], (some md, some ks, none)) ∧
      p = urlPathOf md.jwksURI) := by
  refine ⟨?_, ?_, ?_, ?_, ?_, ?_, ?_⟩
  · rcases h1 : client wellKnownPath with e | body
    · left; simp [discoverAPIServerOIDCOld, h1]
    · rcases h2 : goUnmarshalMetadata body with _ | md
      · left; simp [discoverAPIServerOIDCOld, h1, h2]
      · rcases h3 : goURLParse md.jwksURI with _ | p
        · left; simp [discoverAPIServerOIDCOld, h1, h2, h3]
        · rcases h4 : client p with e2 | kraw
          · right; exact ⟨p, by simp [discoverAPIServerOIDCOld, h1, h2, h3, h4]⟩
          · rcases h5 : goUnmarshalJWKS kraw with _ | ks
            · right; exact ⟨p, by simp [discoverAPIServerOIDCOld, h1, h2, h3, h4, h5]⟩
            · right; exact ⟨p, by simp [discoverAPIServerOIDCOld, h1, h2, h3, h4, h5]⟩
  · intro e h1; simp [discoverAPIServerOIDCOld, h1]
  · intro body h1 h2; simp [discoverAPIServerOIDCOld, h1, h2]
  · intro body md h1 h2 h3; simp [discoverAPIServerOIDCOld, h1, h2, h3]
  · intro body md p e h1 h2 h3 h4; simp [discoverAPIServerOIDCOld, h1, h2, h3, h4]
  · intro body md p kraw h1 h2 h3 h4 h5; simp [discoverAPIServerOIDCOld, h1, h2, h3, h4, h5]
  · intro body md p kraw ks h1 h2 h3 h4 h5
    constructor
    · simp [discoverAPIServerOIDCOld, h1, h2, h3, h4, h5]
    · unfold goURLParse at h3
      split at h3
      · exact absurd h3 (by simp)
      · exact (Option.some.inj h3).symm

/-- C6 witness: with the §8 scenario upstream, the cycle issues exactly
the well-known GET followed by `/openid/v1/jwks` — the path portion of the
advertised `jwks_uri` — and succeeds. -/
theorem c6_fetcher_witness :
    discoverAPIServerOIDCOld clientEx =
      ([wellKnownPath, "/openid/v1/jwks"], (some mdEx, some (some []), none)) ∧
    "/openid/v1/jwks" = urlPathOf mdEx.jwksURI :=
  (c6_fetcher_exactly_two_gets clientEx).2.2.2.2.2.2
    mdBodyEx mdEx "/openid/v1/jwks" jwksBodyEx (some []) rfl rfl rfl rfl rfl
